import Mathlib

/-!
Verification of the wearable-clinical-data-platform repository.

Shallow embedding of:
  * `src/task2/src/api/query_optimizer.py` — `QueryOptimizer.get_optimal_table`
    and `QueryOptimizer.build_optimized_query`;
  * `src/task2/src/api/main.py` — the validation and query shape of `get_metrics`;
  * `src/task1/src/ingestion/main.py` — `FitbitDataProcessor.process_structured_data`,
    `DatabaseManager.insert_raw_data`, `DatabaseManager.log_ingestion`, and
    `FitbitIngestionPipeline.run_structured_data_ingestion`.

Python `datetime` instants are embedded as `Int` microsecond timestamps, so a
`timedelta` difference is an `Int` number of microseconds.  Python floats are
embedded as exact rationals (`ℚ`): every numeric value appearing in the claims
is exactly representable, and no float rounding is exercised by the code paths
under verification.
-/

set_option autoImplicit false

namespace WCDP

/-! ### Tier selector (`query_optimizer.py`, lines 18-37) -/

/-- Microseconds in `timedelta(seconds=n)`. -/
def timedeltaSeconds (n : Int) : Int := n * 1000000

/-- Microseconds in `timedelta(hours=n)`. -/
def timedeltaHours (n : Int) : Int := n * 3600 * 1000000

/-- Microseconds in `timedelta(days=n)`. -/
def timedeltaDays (n : Int) : Int := n * 86400 * 1000000

/-- Embedding of `QueryOptimizer.get_optimal_table`: `time_diff = end_date - start_date`,
then strict-greater-than tests against 7 days, 6 hours, 1 hour, in that order. -/
def get_optimal_table (start_date end_date : Int) : String :=
  let time_diff := end_date - start_date
  if time_diff > timedeltaDays 7 then "data_1d"
  else if time_diff > timedeltaHours 6 then "data_1h"
  else if time_diff > timedeltaHours 1 then "data_1m"
  else "raw_data"

/-! ### Data model for ingestion (`src/task1/src/ingestion/main.py`) -/

/-- Metadata dict attached to every canonical record by the processor: it always
has exactly the keys `resolution`, `priority`, `source`. -/
structure Metadata where
  resolution : String
  priority : String
  source : String
deriving DecidableEq

/-- Canonical record produced by `process_structured_data` and inserted by
`insert_raw_data`.  Timestamps are carried verbatim as the strings the processor
read or synthesized from the input document. -/
structure Record where
  timestamp : String
  user_id : String
  metric_type : String
  value : ℚ
  metadata : Metadata
deriving DecidableEq

/-- JSON scalar occurring in a value position of the input document: a number or a
string.  These are the shapes exercised by the code paths under verification;
`float()` on any other JSON shape fails, like on an unparsable string. -/
inductive JVal where
  | num (q : ℚ)
  | str (s : String)
deriving DecidableEq

/-- Value of one decimal digit character. -/
def digitVal (c : Char) : Option Nat :=
  if c.isDigit then some (c.toNat - 48) else none

/-- Parse a nonempty all-digit character list into a natural number. -/
def parseNatDigits (cs : List Char) : Option Nat :=
  if cs.isEmpty then none
  else cs.foldl (fun acc c => acc.bind fun n => (digitVal c).map fun d => n * 10 + d) (some 0)

/-- Decimal fragment of Python `float(str)`: an optional leading minus sign, then
`digits` or `digits.digits`.  Strings outside this fragment are treated as
coercion failures (`none`), as Python raises `ValueError` on non-numeric text. -/
def parseFloat (s : String) : Option ℚ :=
  let cs := s.toList
  let neg : Bool :=
    match cs with
    | '-' :: _ => true
    | _ => false
  let body : List Char :=
    match cs with
    | '-' :: rest => rest
    | _ => cs
  let absPart : Option ℚ :=
    match body.span (fun c => c ≠ '.') with
    | (intPart, []) => (parseNatDigits intPart).map fun n => (n : ℚ)
    | (intPart, _dot :: fracPart) =>
      if fracPart.contains '.' then none
      else
        (parseNatDigits intPart).bind fun i =>
          (parseNatDigits fracPart).map fun f => (i : ℚ) + (f : ℚ) / (10 ^ fracPart.length)
  absPart.map fun q => if neg then -q else q

/-- Python `float(x)` on a JSON scalar: identity on numbers, decimal parse on
strings, raising (`none`) otherwise. -/
def pyFloat : JVal → Option ℚ
  | .num q => some q
  | .str s => parseFloat s

/-! ### Input-document shape

Each entry structure lists the fields the processor accesses.  A field is
`Option`-valued because the JSON object may lack the key: `record['k']` on a
missing key raises `KeyError`, while `record.get('k', d)` and `if 'k' in record`
treat absence without raising. -/

/-- Entry of `heart_rate.intraday_data`. -/
structure HREntry where
  timestamp : Option String
  participant_id : Option String
  metric_type : Option String
  value : Option JVal
  resolution : Option String
  priority : Option String
deriving DecidableEq

/-- Entry of `breathing_rate.sleep_summaries`. -/
structure BREntry where
  date : Option String
  participant_id : Option String
  deep_sleep_br : Option JVal
  rem_sleep_br : Option JVal
  light_sleep_br : Option JVal
  full_sleep_br : Option JVal
deriving DecidableEq

/-- Entry of `active_zone_minutes.intraday_data`. -/
structure AZMEntry where
  timestamp : Option String
  participant_id : Option String
  fat_burn_minutes : Option JVal
  cardio_minutes : Option JVal
  peak_minutes : Option JVal
  total_minutes : Option JVal
deriving DecidableEq

/-- Entry of `heart_rate_variability.sleep_data`. -/
structure HRVEntry where
  timestamp : Option String
  participant_id : Option String
  rmssd : Option JVal
  lf : Option JVal
  hf : Option JVal
deriving DecidableEq

/-- Entry of `spo2.sleep_data`. -/
structure SpO2Entry where
  timestamp : Option String
  participant_id : Option String
  spo2_value : Option JVal
deriving DecidableEq

/-- Input document.  `structured_data.get('heart_rate', {}).get('intraday_data', [])`
defaults a missing section or list to `[]`, so each section is embedded directly
as a possibly empty list.  `participant_info_id` models
`structured_data.get('participant_info', {}).get('participant_id', ...)`. -/
structure Document where
  heart_rate_intraday : List HREntry
  breathing_rate_summaries : List BREntry
  azm_intraday : List AZMEntry
  hrv_sleep : List HRVEntry
  spo2_sleep : List SpO2Entry
  participant_info_id : Option String
deriving DecidableEq

/-! ### Normalization (`FitbitDataProcessor.process_structured_data`, lines 177-271)

The Python body builds each candidate record in turn inside ONE `try` covering
all five modality sections, appending to a mutable list; the single `except`
catches any exception, logs it, and the accumulated list is returned.  The
embedding enumerates the candidate-record computations in textual order — each
an `Except Unit Record` that fails exactly when the Python construction would
raise (`KeyError` on a missing required field, `ValueError` on `float()`
failure) — and `collect` returns the successful prefix, discarding everything
from the first failure on. -/

/-- Dictionary access `record['k']`: raises (`Except.error`) when the key is absent. -/
def need {α : Type} : Option α → Except Unit α
  | some a => .ok a
  | none => .error ()

/-- Candidate record for one `heart_rate.intraday_data` entry (lines 185-196). -/
def hrStep (r : HREntry) : Except Unit Record := do
  let ts ← need r.timestamp
  let pid ← need r.participant_id
  let mt ← need r.metric_type
  let v ← need ((← need r.value) |> pyFloat)
  pure { timestamp := ts, user_id := pid, metric_type := mt, value := v,
         metadata := { resolution := r.resolution.getD "1_second",
                       priority := r.priority.getD "high",
                       source := "wearipedia_clinical_trial" } }

/-- Candidate record for one present breathing-rate sub-field (lines 205-215). -/
def brSubStep (r : BREntry) (sub : String) (v : JVal) : Except Unit Record := do
  let d ← need r.date
  let pid ← need r.participant_id
  let q ← need (pyFloat v)
  pure { timestamp := d ++ " 00:00:00", user_id := pid,
         metric_type := "breathing_rate_" ++ sub, value := q,
         metadata := { resolution := "per_sleep", priority := "medium",
                       source := "wearipedia_clinical_trial" } }

/-- Candidate records for one `breathing_rate.sleep_summaries` entry: one per
present sub-field, in the order of `br_types` (lines 200-215). -/
def brSteps (r : BREntry) : List (Except Unit Record) :=
  ([("deep_sleep_br", r.deep_sleep_br), ("rem_sleep_br", r.rem_sleep_br),
    ("light_sleep_br", r.light_sleep_br), ("full_sleep_br", r.full_sleep_br)]).filterMap
    fun p => p.2.map fun v => brSubStep r p.1 v

/-- Candidate record for one present active-zone sub-field (lines 223-233). -/
def azmSubStep (r : AZMEntry) (sub : String) (v : JVal) : Except Unit Record := do
  let ts ← need r.timestamp
  let pid ← need r.participant_id
  let q ← need (pyFloat v)
  pure { timestamp := ts, user_id := pid,
         metric_type := "active_zone_" ++ sub, value := q,
         metadata := { resolution := "per_minute", priority := "medium",
                       source := "wearipedia_clinical_trial" } }

/-- Candidate records for one `active_zone_minutes.intraday_data` entry (lines 219-233). -/
def azmSteps (r : AZMEntry) : List (Except Unit Record) :=
  ([("fat_burn_minutes", r.fat_burn_minutes), ("cardio_minutes", r.cardio_minutes),
    ("peak_minutes", r.peak_minutes), ("total_minutes", r.total_minutes)]).filterMap
    fun p => p.2.map fun v => azmSubStep r p.1 v

/-- Candidate record for one present HRV sub-field (lines 241-251). -/
def hrvSubStep (r : HRVEntry) (sub : String) (v : JVal) : Except Unit Record := do
  let ts ← need r.timestamp
  let pid ← need r.participant_id
  let q ← need (pyFloat v)
  pure { timestamp := ts, user_id := pid,
         metric_type := "hrv_" ++ sub, value := q,
         metadata := { resolution := "5_min_during_sleep", priority := "medium",
                       source := "wearipedia_clinical_trial" } }

/-- Candidate records for one `heart_rate_variability.sleep_data` entry (lines 237-251). -/
def hrvSteps (r : HRVEntry) : List (Except Unit Record) :=
  ([("rmssd", r.rmssd), ("lf", r.lf), ("hf", r.hf)]).filterMap
    fun p => p.2.map fun v => hrvSubStep r p.1 v

/-- Candidate record for one `spo2.sleep_data` entry (lines 255-266). -/
def spo2Step (r : SpO2Entry) : Except Unit Record := do
  let ts ← need r.timestamp
  let pid ← need r.participant_id
  let q ← need ((← need r.spo2_value) |> pyFloat)
  pure { timestamp := ts, user_id := pid, metric_type := "spo2", value := q,
         metadata := { resolution := "per_minute_during_sleep", priority := "medium",
                       source := "wearipedia_clinical_trial" } }

/-- All candidate-record computations of `process_structured_data`, in the textual
order of the Python body: heart rate, breathing rate, active zone minutes, HRV,
SpO2. -/
def allSteps (d : Document) : List (Except Unit Record) :=
  d.heart_rate_intraday.map hrStep ++
  d.breathing_rate_summaries.flatMap brSteps ++
  d.azm_intraday.flatMap azmSteps ++
  d.hrv_sleep.flatMap hrvSteps ++
  d.spo2_sleep.map spo2Step

/-- Successful prefix of the candidate computations: the single `try`/`except`
around all five sections means the first raising candidate ends processing, and
the records accumulated before it are returned. -/
def collect : List (Except Unit Record) → List Record
  | [] => []
  | .ok r :: rest => r :: collect rest
  | .error _ :: _ => []

/-- Embedding of `FitbitDataProcessor.process_structured_data`. -/
def process_structured_data (d : Document) : List Record :=
  collect (allSteps d)

/-! ### Storage and bulk upsert (`DatabaseManager.insert_raw_data`, lines 116-156)

The table is embedded as a list of stored records in insertion order.  The SQL
statement is `INSERT INTO raw_data ... ON CONFLICT DO NOTHING`. -/

/-- Dedup key of a stored row. -/
def rowKey (r : Record) : String × String × String :=
  (r.timestamp, r.user_id, r.metric_type)

/-- Whether a row with the same dedup key is already stored. -/
def keyPresent (db : List Record) (r : Record) : Bool :=
  db.any fun x => rowKey x = rowKey r

/-- Modelled from the spec: the `raw_data` table's unique constraint is the
`(timestamp, user_id, metric_type)` triple — the schema DDL that declares it is
not under `src/`, so the conflict target of `ON CONFLICT DO NOTHING` is taken
from the spec's dedup-key invariant.  A colliding write is silently ignored
(first write wins); a non-colliding write appends the row. -/
def insertRow (db : List Record) (r : Record) : List Record :=
  if keyPresent db r then db else db ++ [r]

/-- Embedding of `DatabaseManager.insert_raw_data` on the success path: bulk
insert of the batch in order, each row subject to conflict-ignore. -/
def insert_raw_data (db : List Record) (data : List Record) : List Record :=
  data.foldl insertRow db

/-! ### Chunking and the ingestion run
(`FitbitIngestionPipeline.run_structured_data_ingestion`, lines 281-337) -/

/-- Embedding of the slicing loop `for i in range(0, len(processed_data), batch_size):
batch = processed_data[i:i + batch_size]`: consecutive chunks of `n` elements,
the last possibly shorter. -/
def chunks (n : Nat) : List Record → List (List Record)
  | [] => []
  | x :: xs => ((x :: xs).take n) :: chunks n (xs.drop (n - 1))
  termination_by l => l.length
  decreasing_by simp [List.length_drop]; omega

/-- One provenance row of `ingestion_log`
(`DatabaseManager.log_ingestion`, lines 158-172). -/
structure Provenance where
  user_id : String
  records_processed : Nat
  errors_encountered : Nat
  duration : ℚ
deriving DecidableEq

/-- Result of one ingestion run: the boolean the Python function returns, the
stored table, the provenance log, and the run's two counters. -/
structure RunResult where
  success : Bool
  db : List Record
  provLog : List Provenance
  records_processed : Nat
  errors_encountered : Nat
deriving DecidableEq

/-- Chunk loop of the pipeline (lines 309-317).  `fail k` is the oracle for
whether the database raises during chunk `k`'s upsert: `insert_raw_data` then
rolls back that chunk (leaving the table as before it) and returns `False`, and
the loop increments `total_errors` by one and continues; otherwise the chunk is
committed and `total_records` grows by the chunk's length. -/
def runChunks (fail : Nat → Bool) :
    List (List Record) → Nat → List Record × Nat × Nat → List Record × Nat × Nat
  | [], _, st => st
  | c :: cs, k, (db, recs, errs) =>
    if fail k then runChunks fail cs (k + 1) (db, recs, errs + 1)
    else runChunks fail cs (k + 1) (insert_raw_data db c, recs + c.length, errs)

/-- Embedding of `FitbitIngestionPipeline.run_structured_data_ingestion`.
`connectOk` is the outcome of `db_manager.connect()`; `fail` the per-chunk upsert
failure oracle; `logFail` whether the provenance `INSERT` raises (the exception
is caught inside `log_ingestion` and only logged); `dur` the measured wall-clock
duration.  Mirrors the source: connection failure returns `False`; an empty
processed list logs a warning and returns `False`; otherwise all chunks are
attempted, one provenance row is written (unless that write fails), and the
function returns `True`. -/
def run_structured_data_ingestion (connectOk : Bool) (d : Document) (fail : Nat → Bool)
    (logFail : Bool) (dur : ℚ) (db : List Record) (plog : List Provenance) : RunResult :=
  if !connectOk then
    { success := false, db := db, provLog := plog,
      records_processed := 0, errors_encountered := 0 }
  else
    let processed := process_structured_data d
    if processed.isEmpty then
      { success := false, db := db, provLog := plog,
        records_processed := 0, errors_encountered := 0 }
    else
      let st := runChunks fail (chunks 1000 processed) 0 (db, 0, 0)
      let uid := d.participant_info_id.getD "synthetic_user_001"
      let plog' := if logFail then plog
                   else plog ++ [{ user_id := uid, records_processed := st.2.1,
                                   errors_encountered := st.2.2, duration := dur }]
      { success := true, db := st.1, provLog := plog',
        records_processed := st.2.1, errors_encountered := st.2.2 }

/-- Chunks of the run kept in the table: those whose upsert did not fail.
Chunk indices count from `k`. -/
def keptChunks (fail : Nat → Bool) : Nat → List (List Record) → List (List Record)
  | _, [] => []
  | k, c :: cs =>
    if fail k then keptChunks fail (k + 1) cs else c :: keptChunks fail (k + 1) cs

/-- Number of failing chunks, indices counting from `k`. -/
def failCount (fail : Nat → Bool) : Nat → List (List Record) → Nat
  | _, [] => 0
  | k, _ :: cs => (if fail k then 1 else 0) + failCount fail (k + 1) cs

/-- C1: the tier selector evaluates the span with strict-greater-than comparisons in
the order daily, hourly, minute, raw; a span exactly equal to a threshold falls to
the next finer tier (7 days → hourly, 6 hours → minute, 1 hour → raw). -/
theorem C1_tier_selector_thresholds (s e : Int) :
    (e - s > timedeltaDays 7 → get_optimal_table s e = "data_1d") ∧
    (e - s ≤ timedeltaDays 7 → e - s > timedeltaHours 6 → get_optimal_table s e = "data_1h") ∧
    (e - s ≤ timedeltaHours 6 → e - s > timedeltaHours 1 → get_optimal_table s e = "data_1m") ∧
    (e - s ≤ timedeltaHours 1 → get_optimal_table s e = "raw_data") ∧
    (e - s = timedeltaDays 7 → get_optimal_table s e = "data_1h") ∧
    (e - s = timedeltaHours 6 → get_optimal_table s e = "data_1m") ∧
    (e - s = timedeltaHours 1 → get_optimal_table s e = "raw_data") := by
  simp only [get_optimal_table, timedeltaDays, timedeltaHours]
  refine ⟨?_, ?_, ?_, ?_, ?_, ?_, ?_⟩ <;>
    · intros
      split_ifs <;> first | rfl | omega

/-- Witness for C1 at the boundary spans: exactly 7 days, 6 hours, 1 hour. -/
theorem C1_tier_selector_thresholds_witness :
    get_optimal_table 0 (timedeltaDays 7) = "data_1h" ∧
    get_optimal_table 0 (timedeltaHours 6) = "data_1m" ∧
    get_optimal_table 0 (timedeltaHours 1) = "raw_data" ∧
    get_optimal_table 0 (timedeltaDays 7 + timedeltaSeconds 1) = "data_1d" := by
  refine ⟨?_, ?_, ?_, ?_⟩
  · exact (C1_tier_selector_thresholds 0 (timedeltaDays 7)).2.2.2.2.1 (by decide)
  · exact (C1_tier_selector_thresholds 0 (timedeltaHours 6)).2.2.2.2.2.1 (by decide)
  · exact (C1_tier_selector_thresholds 0 (timedeltaHours 1)).2.2.2.2.2.2 (by decide)
  · exact (C1_tier_selector_thresholds 0 (timedeltaDays 7 + timedeltaSeconds 1)).1 (by decide)

/-- C10: the tier selector is total — it returns one of exactly four table names on
every datetime pair, and every zero or negative span yields the raw tier. -/
theorem C10_tier_selector_total (s e : Int) :
    (get_optimal_table s e = "data_1d" ∨ get_optimal_table s e = "data_1h" ∨
     get_optimal_table s e = "data_1m" ∨ get_optimal_table s e = "raw_data") ∧
    (e ≤ s → get_optimal_table s e = "raw_data") := by
  constructor
  · simp only [get_optimal_table]
    split_ifs <;> simp
  · intro h
    simp only [get_optimal_table, timedeltaDays, timedeltaHours]
    split_ifs <;> first | rfl | omega

/-- Witness for C10 on a reversed range. -/
theorem C10_tier_selector_total_witness :
    get_optimal_table 5 0 = "raw_data" :=
  (C10_tier_selector_total 5 0).2 (by decide)

/-! ### Query construction and execution
(`query_optimizer.py` lines 39-76; `main.py` lines 110-168)

On the query side timestamps are embedded as `Int` microsecond instants, so
`ORDER BY timestamp` / `ORDER BY bucket` and the range predicate compare
integers. -/

/-- Metadata column of a returned row: the raw query selects the stored
`metadata` verbatim; the aggregated query selects
`json_build_object('min', min_value, 'max', max_value, 'count', count)`. -/
inductive MetaShape where
  | stored (m : Metadata)
  | agg (min_value max_value : ℚ) (count : Nat)
deriving DecidableEq

/-- Row of the `raw_data` table as the query path sees it. -/
structure RawRow where
  timestamp : Int
  user_id : String
  metric_type : String
  value : ℚ
  metadata : Metadata
deriving DecidableEq

/-- Row of an aggregate tier table (`data_1m`, `data_1h`, `data_1d`). -/
structure AggRow where
  bucket : Int
  user_id : String
  metric_type : String
  avg_value : ℚ
  min_value : ℚ
  max_value : ℚ
  count : Nat
deriving DecidableEq

/-- Returned `(timestamp, value, metadata)` triple. -/
structure ResultRow where
  timestamp : Int
  value : ℚ
  metadata : MetaShape
deriving DecidableEq

/-- Structured content of what `build_optimized_query` returns: the selected
table name and the five positional parameters
`(user_id, metric_type, start_date, end_date, limit)`. -/
structure QuerySpec where
  table : String
  user_id : String
  metric_type : String
  start_ts : Int
  end_ts : Int
  limit : Nat
deriving DecidableEq

/-- Embedding of `QueryOptimizer.build_optimized_query`: picks the table with
`get_optimal_table` and pairs it with the parameters.  The function performs no
validation of the range; the SQL text it chooses (raw shape for `raw_data`,
aggregated shape otherwise) is given semantics by `execQuery`. -/
def build_optimized_query (start_ts end_ts : Int) (uid mt : String) (lim : Nat) :
    QuerySpec :=
  { table := get_optimal_table start_ts end_ts, user_id := uid, metric_type := mt,
    start_ts := start_ts, end_ts := end_ts, limit := lim }

/-- Insert a row into a list kept ascending by timestamp. -/
def insertSorted (r : ResultRow) : List ResultRow → List ResultRow
  | [] => [r]
  | x :: xs => if r.timestamp ≤ x.timestamp then r :: x :: xs else x :: insertSorted r xs

/-- Ascending-by-timestamp sort, the semantics of `ORDER BY timestamp ASC` /
`ORDER BY bucket ASC`. -/
def sortByTs : List ResultRow → List ResultRow
  | [] => []
  | x :: xs => insertSorted x (sortByTs xs)

/-- `ORDER BY ... ASC LIMIT %s` applied to the selected rows. -/
def runSelect (rows : List ResultRow) (lim : Nat) : List ResultRow :=
  (sortByTs rows).take lim

/-- Semantics of the SQL text built by `build_optimized_query`, executed over the
stores: the raw branch filters `raw_data` on user, metric and inclusive
timestamp range and projects `(timestamp, value, metadata)` verbatim; the
aggregated branch filters the tier table on user, metric and inclusive bucket
range and projects `(bucket, avg_value, json_build_object(min, max, count))`;
both order ascending by time and apply `LIMIT`. -/
def execQuery (spec : QuerySpec) (raw_table : List RawRow)
    (aggTables : String → List AggRow) : List ResultRow :=
  if spec.table == "raw_data" then
    runSelect
      ((raw_table.filter fun r =>
          r.user_id == spec.user_id && r.metric_type == spec.metric_type &&
          decide (spec.start_ts ≤ r.timestamp) && decide (r.timestamp ≤ spec.end_ts)).map
        fun r => { timestamp := r.timestamp, value := r.value,
                   metadata := .stored r.metadata })
      spec.limit
  else
    runSelect
      (((aggTables spec.table).filter fun b =>
          b.user_id == spec.user_id && b.metric_type == spec.metric_type &&
          decide (spec.start_ts ≤ b.bucket) && decide (b.bucket ≤ spec.end_ts)).map
        fun b => { timestamp := b.bucket, value := b.avg_value,
                   metadata := .agg b.min_value b.max_value b.count })
      spec.limit

/-- Exception raised inside the endpoint's `try` block:
`fastapi.HTTPException(status_code, detail)`. -/
inductive PyExc where
  | httpException (status : Nat) (detail : String)
deriving DecidableEq

/-- Outcome the `/api/v1/metrics` endpoint reports to its caller. -/
inductive ApiOutcome where
  | httpError (status : Nat) (detail : String)
  | results (rows : List ResultRow)
deriving DecidableEq

/-- Body of the `get_metrics` `try` block (`main.py` lines 124-168) after a
successful date parse: a range with `start_dt >= end_dt` raises
`HTTPException(400, "start_date must be before end_date")` (lines 130-134)
before any query is executed; otherwise the endpoint runs its inline `raw_data`
query, whose SQL is exactly the raw branch shape. -/
def get_metrics_body (uid mt : String) (start_dt end_dt : Int) (lim : Nat)
    (raw_table : List RawRow) : Except PyExc (List ResultRow) :=
  if start_dt ≥ end_dt then
    .error (.httpException 400 "start_date must be before end_date")
  else
    .ok (execQuery
      { table := "raw_data", user_id := uid, metric_type := mt,
        start_ts := start_dt, end_ts := end_dt, limit := lim }
      raw_table (fun _ => []))

/-- Embedding of `get_metrics` as the caller observes it.  `HTTPException` is a
subclass of `Exception` and not of `ValueError`, so any `HTTPException` escaping
the `try` body — including the 400 raised by the range check — is intercepted by
the `except Exception` handler (`main.py` lines 175-180), logged, and re-raised
as `HTTPException(500, "Internal server error")`. -/
def get_metrics (uid mt : String) (start_dt end_dt : Int) (lim : Nat)
    (raw_table : List RawRow) : ApiOutcome :=
  match get_metrics_body uid mt start_dt end_dt lim raw_table with
  | .ok rows => .results rows
  | .error (.httpException _ _) => .httpError 500 "Internal server error"

/-! ### Modality-failure isolation (C2)

A heart-rate entry whose `value` is a non-numeric string makes `float()` raise
inside the first modality section; the single `try`/`except` of
`process_structured_data` then skips every later section. -/

/-- Heart-rate entry with a non-numeric value: `float('not_a_number')` raises. -/
def c2BadHREntry : HREntry :=
  { timestamp := some "2024-01-01 00:00:00", participant_id := some "U1",
    metric_type := some "heart_rate", value := some (.str "not_a_number"),
    resolution := none, priority := none }

/-- Well-formed SpO2 entry. -/
def c2GoodSpO2Entry : SpO2Entry :=
  { timestamp := some "2024-01-01 01:00:00", participant_id := some "U1",
    spo2_value := some (.num 97) }

/-- Document with a malformed heart-rate section and a well-formed SpO2 section. -/
def c2BadDoc : Document :=
  { heart_rate_intraday := [c2BadHREntry], breathing_rate_summaries := [],
    azm_intraday := [], hrv_sleep := [], spo2_sleep := [c2GoodSpO2Entry],
    participant_info_id := none }

/-- The same document without the malformed heart-rate section. -/
def c2SpO2OnlyDoc : Document :=
  { heart_rate_intraday := [], breathing_rate_summaries := [],
    azm_intraday := [], hrv_sleep := [], spo2_sleep := [c2GoodSpO2Entry],
    participant_info_id := none }

/-- C2 counterexample: the SpO2 section alone is well-formed and yields its
record, but in the document whose heart-rate section holds one malformed entry,
normalization returns no records at all — the failure is not isolated to the bad
candidate, the remaining modality sections do not execute, and the well-formed
SpO2 modality yields nothing. -/
theorem C2_counterexample_no_isolation :
    process_structured_data c2SpO2OnlyDoc =
      [{ timestamp := "2024-01-01 01:00:00", user_id := "U1", metric_type := "spo2",
         value := 97,
         metadata := { resolution := "per_minute_during_sleep", priority := "medium",
                       source := "wearipedia_clinical_trial" } }] ∧
    process_structured_data c2BadDoc = [] := by
  constructor <;> rfl

theorem collect_append_error (l1 l2 : List (Except Unit Record)) :
    collect (l1 ++ Except.error () :: l2) = collect l1 := by
  induction l1 with
  | nil => rfl
  | cons x xs ih =>
    cases x with
    | ok r =>
      simp only [List.cons_append, collect]
      exact congrArg (r :: ·) ih
    | error e => rfl

/-- C2 amended: a failure while building one candidate record is caught by the
single `try`/`except` wrapped around all five modality sections: the records
accumulated before the failing candidate are returned, the failing candidate and
every later entry and modality section are skipped, and no skip counter exists. -/
theorem C2_amended_first_failure_aborts (d : Document)
    (l1 l2 : List (Except Unit Record))
    (h : allSteps d = l1 ++ Except.error () :: l2) :
    process_structured_data d = collect l1 := by
  unfold process_structured_data
  rw [h]
  exact collect_append_error l1 l2

/-- Witness for the amended C2 on the concrete malformed document: the failing
heart-rate candidate is the first step, so nothing is returned. -/
theorem C2_amended_first_failure_aborts_witness :
    process_structured_data c2BadDoc = [] :=
  (C2_amended_first_failure_aborts c2BadDoc [] [spo2Step c2GoodSpO2Entry] rfl).trans rfl

/-! ### Idempotence of the bulk upsert (C3) -/

theorem keyPresent_insertRow_self (db : List Record) (r : Record) :
    keyPresent (insertRow db r) r = true := by
  unfold insertRow
  split_ifs with h
  · exact h
  · simp [keyPresent, List.any_append]

theorem keyPresent_insertRow_mono (db : List Record) (x r : Record)
    (h : keyPresent db r = true) : keyPresent (insertRow db x) r = true := by
  unfold insertRow
  split_ifs
  · exact h
  · simp only [keyPresent, List.any_append, Bool.or_eq_true]
    exact Or.inl h

theorem insertRow_of_present (db : List Record) (r : Record)
    (h : keyPresent db r = true) : insertRow db r = db := by
  simp [insertRow, h]

theorem keyPresent_insert_raw_data_mono (l : List Record) (db : List Record) (r : Record)
    (h : keyPresent db r = true) : keyPresent (insert_raw_data db l) r = true := by
  induction l generalizing db with
  | nil => exact h
  | cons x xs ih =>
    simp only [insert_raw_data, List.foldl_cons]
    exact ih (insertRow db x) (keyPresent_insertRow_mono db x r h)

theorem keyPresent_after_insert_raw_data (l : List Record) (db : List Record) (r : Record)
    (h : r ∈ l) : keyPresent (insert_raw_data db l) r = true := by
  induction l generalizing db with
  | nil => cases h
  | cons x xs ih =>
    simp only [insert_raw_data, List.foldl_cons]
    rcases List.mem_cons.mp h with rfl | hx
    · exact keyPresent_insert_raw_data_mono xs (insertRow db r) r
        (keyPresent_insertRow_self db r)
    · exact ih (insertRow db x) hx

theorem insert_raw_data_id_of_present (l : List Record) (db : List Record)
    (h : ∀ r ∈ l, keyPresent db r = true) : insert_raw_data db l = db := by
  induction l with
  | nil => rfl
  | cons x xs ih =>
    simp only [insert_raw_data, List.foldl_cons] at *
    rw [insertRow_of_present db x (h x (List.mem_cons_self x xs))]
    exact ih fun r hr => h r (List.mem_cons_of_mem x hr)

/-- C3: ingestion is idempotent — bulk-upserting the same record set a second
time leaves the stored row set unchanged, because every record's
`(timestamp, user_id, metric_type)` key is already present after the first pass
and colliding writes are silently ignored. -/
theorem C3_ingestion_idempotent (db : List Record) (data : List Record) :
    insert_raw_data (insert_raw_data db data) data = insert_raw_data db data :=
  insert_raw_data_id_of_present data (insert_raw_data db data)
    fun r hr => keyPresent_after_insert_raw_data data db r hr

/-! ### Chunked ingestion with per-chunk error isolation (C4) -/

theorem chunks_flatten_aux (n : Nat) (hn : 0 < n) :
    ∀ (N : Nat) (l : List Record), l.length ≤ N → (chunks n l).flatten = l := by
  intro N
  induction N with
  | zero =>
    intro l hl
    cases l with
    | nil => simp [chunks]
    | cons x xs => simp at hl
  | succ N ih =>
    intro l hl
    cases l with
    | nil => simp [chunks]
    | cons x xs =>
      simp only [chunks, List.flatten_cons]
      rw [ih (xs.drop (n - 1)) (by simp only [List.length_drop]; simp at hl; omega)]
      cases n with
      | zero => omega
      | succ m =>
        simp only [List.take_succ_cons, Nat.add_sub_cancel, List.cons_append,
          List.take_append_drop]

theorem chunks_flatten (n : Nat) (hn : 0 < n) (l : List Record) :
    (chunks n l).flatten = l :=
  chunks_flatten_aux n hn l.length l le_rfl

theorem chunks_mem_aux (n : Nat) (hn : 0 < n) :
    ∀ (N : Nat) (l : List Record), l.length ≤ N →
      ∀ c ∈ chunks n l, c ≠ [] ∧ c.length ≤ n := by
  intro N
  induction N with
  | zero =>
    intro l hl c hc
    cases l with
    | nil => simp [chunks] at hc
    | cons x xs => simp at hl
  | succ N ih =>
    intro l hl c hc
    cases l with
    | nil => simp [chunks] at hc
    | cons x xs =>
      simp only [chunks, List.mem_cons] at hc
      rcases hc with rfl | hc
      · refine ⟨?_, List.length_take_le n (x :: xs)⟩
        cases n with
        | zero => omega
        | succ m => simp [List.take_succ_cons]
      · exact ih (xs.drop (n - 1))
          (by simp only [List.length_drop]; simp at hl; omega) c hc

theorem runChunks_spec (fail : Nat → Bool) :
    ∀ (cs : List (List Record)) (k : Nat) (db : List Record) (recs errs : Nat),
      runChunks fail cs k (db, recs, errs) =
        (List.foldl insert_raw_data db (keptChunks fail k cs),
         recs + ((keptChunks fail k cs).map List.length).sum,
         errs + failCount fail k cs) := by
  intro cs
  induction cs with
  | nil => intro k db recs errs; simp [runChunks, keptChunks, failCount]
  | cons c cs ih =>
    intro k db recs errs
    by_cases h : fail k
    · simp only [runChunks, h, if_pos, ih, keptChunks, failCount]
      refine Prod.ext rfl (Prod.ext ?_ ?_) <;> (simp; try omega)
    · simp only [runChunks, h, if_neg, Bool.false_eq_true, ite_false, ih,
        keptChunks, failCount, List.map_cons, List.sum_cons]
      refine Prod.ext rfl (Prod.ext ?_ ?_) <;> (simp; try omega)

/-- C4: the ingestor splits records into fixed-size chunks of 1000 (consecutive,
covering the input, every chunk nonempty and at most 1000 long) and commits each
chunk independently: after the loop the table holds exactly the fold of the
non-failing chunks over the initial table (a failing chunk `k` is rolled back
alone — earlier committed chunks remain and later chunks are still attempted),
the error counter equals the number of failing chunks, the record counter sums
the committed chunks' lengths, and a run over a nonempty processed list returns
success regardless of chunk failures. -/
theorem C4_chunk_isolation (l : List Record) (fail : Nat → Bool) (db : List Record)
    (d : Document) (logFail : Bool) (dur : ℚ) (plog : List Provenance) :
    (chunks 1000 l).flatten = l ∧
    (∀ c ∈ chunks 1000 l, c ≠ [] ∧ c.length ≤ 1000) ∧
    runChunks fail (chunks 1000 l) 0 (db, 0, 0) =
      (List.foldl insert_raw_data db (keptChunks fail 0 (chunks 1000 l)),
       ((keptChunks fail 0 (chunks 1000 l)).map List.length).sum,
       failCount fail 0 (chunks 1000 l)) ∧
    (process_structured_data d ≠ [] →
      (run_structured_data_ingestion true d fail logFail dur db plog).success = true) := by
  refine ⟨chunks_flatten 1000 (by decide) l,
          chunks_mem_aux 1000 (by decide) l.length l le_rfl,
          ?_, ?_⟩
  · simpa using runChunks_spec fail (chunks 1000 l) 0 db 0 0
  · intro h
    simp only [run_structured_data_ingestion, Bool.not_true, Bool.false_eq_true,
      if_false, List.isEmpty_iff]
    split_ifs with h2 <;> first | exact absurd h2 h | rfl

/-- Record used in concrete chunking witnesses. -/
def c4Rec : Record :=
  { timestamp := "2024-01-01 00:00:00", user_id := "U1", metric_type := "heart_rate",
    value := 72,
    metadata := { resolution := "1_second", priority := "high",
                  source := "wearipedia_clinical_trial" } }

/-- Witness for C4 on a one-record run whose only chunk fails: the chunk list is
`[[c4Rec]]`, the failing chunk is rolled back (table stays empty), the error
counter is 1, and a run on a document with one well-formed record still returns
success under the same failing oracle. -/
theorem C4_chunk_isolation_witness :
    (chunks 1000 [c4Rec]).flatten = [c4Rec] ∧
    ([c4Rec] ≠ [] ∧ [c4Rec].length ≤ 1000) ∧
    runChunks (fun k => k == 0) (chunks 1000 [c4Rec]) 0 ([], 0, 0) =
      (List.foldl insert_raw_data [] (keptChunks (fun k => k == 0) 0 (chunks 1000 [c4Rec])),
       ((keptChunks (fun k => k == 0) 0 (chunks 1000 [c4Rec])).map List.length).sum,
       failCount (fun k => k == 0) 0 (chunks 1000 [c4Rec])) ∧
    (run_structured_data_ingestion true c2SpO2OnlyDoc (fun k => k == 0)
      false 0 [] []).success = true := by
  have h := C4_chunk_isolation [c4Rec] (fun k => k == 0) [] c2SpO2OnlyDoc false 0 []
  exact ⟨h.1, h.2.1 [c4Rec] (by simp [chunks]), h.2.2.1, h.2.2.2 (by decide)⟩

/-! ### End-to-end single heart-rate record (C5) -/

/-- Document with exactly one heart-rate intraday entry
`{timestamp: T, participant_id: "U1", metric_type: "heart_rate", value: "72"}`. -/
def c5Entry (T : String) : HREntry :=
  { timestamp := some T, participant_id := some "U1",
    metric_type := some "heart_rate", value := some (.str "72"),
    resolution := none, priority := none }

/-- Document whose only content is that one heart-rate entry. -/
def c5Doc (T : String) : Document :=
  { heart_rate_intraday := [c5Entry T],
    breathing_rate_summaries := [], azm_intraday := [], hrv_sleep := [],
    spo2_sleep := [], participant_info_id := none }

/-- Canonical record the processor produces for that entry. -/
def c5Record (T : String) : Record :=
  { timestamp := T, user_id := "U1", metric_type := "heart_rate", value := 72,
    metadata := { resolution := "1_second", priority := "high",
                  source := "wearipedia_clinical_trial" } }

/-- C5 counterexample: the produced record's metadata source tag is the constant
`"wearipedia_clinical_trial"` of line 194, not the `"clinical_trial"` the claim
states, so the claimed canonical record is not the one produced. -/
theorem C5_counterexample_source_tag :
    process_structured_data (c5Doc "2024-01-15 10:30:00") ≠
      [{ timestamp := "2024-01-15 10:30:00", user_id := "U1",
         metric_type := "heart_rate", value := 72,
         metadata := { resolution := "1_second", priority := "high",
                       source := "clinical_trial" } }] ∧
    (process_structured_data (c5Doc "2024-01-15 10:30:00")).map
        (fun r => r.metadata.source) = ["wearipedia_clinical_trial"] := by
  exact ⟨by decide, rfl⟩

/-- C5 amended: the single heart-rate entry normalizes to exactly one canonical
record with timestamp `T`, user `"U1"`, metric `"heart_rate"`, value `72.0` and
metadata `{resolution: "1_second", priority: "high", source:
"wearipedia_clinical_trial"}`, and ingesting it succeeds with
`records_processed = 1` and `errors_encountered = 0`. -/
theorem C5_amended_end_to_end (T : String) (dur : ℚ) :
    process_structured_data (c5Doc T) = [c5Record T] ∧
    run_structured_data_ingestion true (c5Doc T) (fun _ => false) false dur [] [] =
      { success := true, db := [c5Record T],
        provLog := [{ user_id := "synthetic_user_001", records_processed := 1,
                      errors_encountered := 0, duration := dur }],
        records_processed := 1, errors_encountered := 0 } := by
  have hp : process_structured_data (c5Doc T) = [c5Record T] := rfl
  refine ⟨hp, ?_⟩
  have hc : chunks 1000 [c5Record T] = [[c5Record T]] := by simp [chunks]
  simp only [run_structured_data_ingestion, hp, hc, Bool.not_true, Bool.false_eq_true,
    if_false, List.isEmpty_cons, ite_false, runChunks]
  rfl

/-! ### Zero-record run (C8) -/

/-- Document that normalizes to zero records. -/
def emptyDoc : Document :=
  { heart_rate_intraday := [], breathing_rate_summaries := [], azm_intraday := [],
    hrv_sleep := [], spo2_sleep := [], participant_info_id := none }

/-- C8 counterexample: with database connectivity succeeding, a run whose
normalization produces zero records returns `False` (lines 326-328), not the
no-op success the claim states. -/
theorem C8_counterexample_empty_run_fails :
    process_structured_data emptyDoc = [] ∧
    (run_structured_data_ingestion true emptyDoc (fun _ => false) false 0 [] []).success
      = false :=
  ⟨rfl, rfl⟩

/-- C8 amended: a run whose normalization produces zero records is reported as a
failure — it returns `False` with zero insertions, zero counters and no
provenance row, even when connectivity succeeded; the empty-batch short-circuit
of `insert_raw_data` (a no-op returning `True`, lines 118-120) is never reached
on this path. -/
theorem C8_amended_empty_run_failure (d : Document) (fail : Nat → Bool)
    (logFail : Bool) (dur : ℚ) (db : List Record) (plog : List Provenance)
    (h : process_structured_data d = []) :
    run_structured_data_ingestion true d fail logFail dur db plog =
      { success := false, db := db, provLog := plog, records_processed := 0,
        errors_encountered := 0 } ∧
    insert_raw_data db [] = db := by
  refine ⟨?_, rfl⟩
  simp [run_structured_data_ingestion, h]

/-- Witness for the amended C8 on the empty document. -/
theorem C8_amended_empty_run_failure_witness :
    run_structured_data_ingestion true emptyDoc (fun _ => false) false 0 [] [] =
      { success := false, db := [], provLog := [], records_processed := 0,
        errors_encountered := 0 } ∧
    insert_raw_data [] [] = [] :=
  C8_amended_empty_run_failure emptyDoc (fun _ => false) false 0 [] [] rfl

/-! ### Provenance record (C9) -/

/-- C9: a run that reaches chunk processing writes exactly one provenance row
after all chunks are attempted — appended to the log, never mutating existing
rows, summarizing the run's final totals and duration — and a failure of that
write (`logFail = true`, swallowed inside `log_ingestion`, lines 171-172) leaves
every other component of the run's outcome unchanged, the run still succeeding. -/
theorem C9_provenance_once (d : Document) (fail : Nat → Bool) (dur : ℚ)
    (db : List Record) (plog : List Provenance)
    (h : process_structured_data d ≠ []) :
    let r0 := run_structured_data_ingestion true d fail false dur db plog
    let r1 := run_structured_data_ingestion true d fail true dur db plog
    r0.provLog = plog ++ [{ user_id := d.participant_info_id.getD "synthetic_user_001",
                            records_processed := r0.records_processed,
                            errors_encountered := r0.errors_encountered,
                            duration := dur }] ∧
    r1.provLog = plog ∧
    r0.success = r1.success ∧ r0.db = r1.db ∧
    r0.records_processed = r1.records_processed ∧
    r0.errors_encountered = r1.errors_encountered ∧
    r0.success = true := by
  have hne : (process_structured_data d).isEmpty = false := by
    simpa [List.isEmpty_iff] using h
  simp [run_structured_data_ingestion, hne]

/-- Witness for C9 on the one-record document, with the provenance write failing
in the second run. -/
theorem C9_provenance_once_witness :
    let r0 := run_structured_data_ingestion true (c5Doc "t") (fun _ => false) false 0 [] []
    let r1 := run_structured_data_ingestion true (c5Doc "t") (fun _ => false) true 0 [] []
    r0.provLog = [] ++ [{ user_id := (c5Doc "t").participant_info_id.getD "synthetic_user_001",
                          records_processed := r0.records_processed,
                          errors_encountered := r0.errors_encountered,
                          duration := 0 }] ∧
    r1.provLog = [] ∧
    r0.success = r1.success ∧ r0.db = r1.db ∧
    r0.records_processed = r1.records_processed ∧
    r0.errors_encountered = r1.errors_encountered ∧
    r0.success = true :=
  C9_provenance_once (c5Doc "t") (fun _ => false) 0 [] [] (by decide)

/-! ### Query validation (C6) -/

/-- C6 counterexample: at `start = end` (a rejected input per the claim),
`build_optimized_query` reports no validation error — it builds and returns a
complete raw-tier query specification.  The function's result type has no error
outcome at all, so the claim that the query builder rejects such requests is
false of the code. -/
theorem C6_counterexample_builder_accepts :
    build_optimized_query 0 0 "u1" "heart_rate" 5 =
      { table := "raw_data", user_id := "u1", metric_type := "heart_rate",
        start_ts := 0, end_ts := 0, limit := 5 } := rfl

/-- C6 amended: `build_optimized_query` itself performs no range validation and
builds a raw-tier query for every `start >= end`; the range check lives in the
API endpoint `get_metrics`, whose `try` body raises `HTTPException(400,
"start_date must be before end_date")` before any query is executed — but that
exception is intercepted by the endpoint's broad `except Exception` handler and
re-raised, so the caller actually receives HTTP 500 `"Internal server error"`,
not a validation error. -/
theorem C6_amended_endpoint_500 (s e : Int) (uid mt : String) (lim : Nat)
    (raw_table : List RawRow) (h : s ≥ e) :
    get_metrics_body uid mt s e lim raw_table =
      .error (.httpException 400 "start_date must be before end_date") ∧
    get_metrics uid mt s e lim raw_table = .httpError 500 "Internal server error" ∧
    (build_optimized_query s e uid mt lim).table = "raw_data" := by
  have hb : get_metrics_body uid mt s e lim raw_table =
      .error (.httpException 400 "start_date must be before end_date") := by
    simp [get_metrics_body, h]
  refine ⟨hb, ?_, ?_⟩
  · simp [get_metrics, hb]
  · simp only [build_optimized_query, get_optimal_table, timedeltaDays, timedeltaHours]
    split_ifs <;> first | rfl | omega

/-- Witness for the amended C6 at `start = end = 0`. -/
theorem C6_amended_endpoint_500_witness :
    get_metrics_body "u1" "heart_rate" 0 0 5 [] =
      .error (.httpException 400 "start_date must be before end_date") ∧
    get_metrics "u1" "heart_rate" 0 0 5 [] = .httpError 500 "Internal server error" ∧
    (build_optimized_query 0 0 "u1" "heart_rate" 5).table = "raw_data" :=
  C6_amended_endpoint_500 0 0 "u1" "heart_rate" 5 [] (by decide)

/-! ### Query shape per tier (C7) -/

theorem mem_insertSorted (r a : ResultRow) (l : List ResultRow) :
    a ∈ insertSorted r l ↔ a = r ∨ a ∈ l := by
  induction l with
  | nil => simp [insertSorted]
  | cons x xs ih =>
    simp only [insertSorted]
    split_ifs
    · simp only [List.mem_cons]
    · simp only [List.mem_cons, ih]
      tauto

theorem sorted_insertSorted (r : ResultRow) (l : List ResultRow)
    (h : l.Sorted fun a b => a.timestamp ≤ b.timestamp) :
    (insertSorted r l).Sorted fun a b => a.timestamp ≤ b.timestamp := by
  induction l with
  | nil => simp [insertSorted]
  | cons x xs ih =>
    rw [List.sorted_cons] at h
    obtain ⟨hx, hxs⟩ := h
    simp only [insertSorted]
    split_ifs with hr
    · rw [List.sorted_cons]
      refine ⟨?_, ?_⟩
      · intro b hb
        rcases List.mem_cons.mp hb with rfl | hb
        · exact hr
        · exact le_trans hr (hx b hb)
      · rw [List.sorted_cons]
        exact ⟨hx, hxs⟩
    · rw [List.sorted_cons]
      refine ⟨?_, ih hxs⟩
      intro b hb
      rcases (mem_insertSorted r b xs).mp hb with rfl | hb
      · omega
      · exact hx b hb

theorem sorted_sortByTs (l : List ResultRow) :
    (sortByTs l).Sorted fun a b => a.timestamp ≤ b.timestamp := by
  induction l with
  | nil => simp [sortByTs]
  | cons x xs ih => exact sorted_insertSorted x (sortByTs xs) ih

theorem mem_sortByTs (a : ResultRow) (l : List ResultRow) :
    a ∈ sortByTs l ↔ a ∈ l := by
  induction l with
  | nil => simp [sortByTs]
  | cons x xs ih =>
    simp only [sortByTs, mem_insertSorted, List.mem_cons, ih]

theorem sorted_runSelect (rows : List ResultRow) (lim : Nat) :
    (runSelect rows lim).Sorted fun a b => a.timestamp ≤ b.timestamp :=
  List.Pairwise.sublist (List.take_sublist lim (sortByTs rows)) (sorted_sortByTs rows)

theorem length_runSelect (rows : List ResultRow) (lim : Nat) :
    (runSelect rows lim).length ≤ lim :=
  List.length_take_le lim (sortByTs rows)

theorem mem_runSelect (a : ResultRow) (rows : List ResultRow) (lim : Nat)
    (h : a ∈ runSelect rows lim) : a ∈ rows :=
  (mem_sortByTs a rows).mp ((List.take_sublist lim (sortByTs rows)).mem h)

/-- C7: for every tier the built query's results are ordered ascending by time
and capped at `limit`; every row returned from the raw tier is the verbatim
`(timestamp, value, metadata)` of a stored raw row, and every row returned from
an aggregated tier is the bucket timestamp, the bucket mean as `value`, and
metadata synthesized as `{min, max, count}` from the bucket's statistics — by
construction never the `MetaShape.stored` per-sample metadata. -/
theorem C7_query_shape_per_tier (sts ets : Int) (uid mt : String) (lim : Nat)
    (raw_table : List RawRow) (aggTables : String → List AggRow) :
    (execQuery (build_optimized_query sts ets uid mt lim) raw_table aggTables).Sorted
      (fun a b => a.timestamp ≤ b.timestamp) ∧
    (execQuery (build_optimized_query sts ets uid mt lim) raw_table aggTables).length
      ≤ lim ∧
    ((build_optimized_query sts ets uid mt lim).table = "raw_data" →
      ∀ r ∈ execQuery (build_optimized_query sts ets uid mt lim) raw_table aggTables,
        ∃ src, src ∈ raw_table ∧
          r = { timestamp := src.timestamp, value := src.value,
                metadata := .stored src.metadata }) ∧
    ((build_optimized_query sts ets uid mt lim).table ≠ "raw_data" →
      ∀ r ∈ execQuery (build_optimized_query sts ets uid mt lim) raw_table aggTables,
        ∃ b, b ∈ aggTables (build_optimized_query sts ets uid mt lim).table ∧
          r = { timestamp := b.bucket, value := b.avg_value,
                metadata := .agg b.min_value b.max_value b.count }) := by
  by_cases htab : (build_optimized_query sts ets uid mt lim).table = "raw_data"
  · simp only [execQuery, htab, beq_self_eq_true, if_true]
    refine ⟨sorted_runSelect _ _, length_runSelect _ _, ?_, ?_⟩
    · intro _ r hr
      have hmem := mem_runSelect r _ _ hr
      obtain ⟨src, hsrc, rfl⟩ := List.mem_map.mp hmem
      exact ⟨src, (List.mem_filter.mp hsrc).1, rfl⟩
    · intro hne
      exact absurd rfl hne
  · simp only [execQuery, beq_iff_eq, build_optimized_query]
    rw [if_neg (show ¬ get_optimal_table sts ets = "raw_data" from htab)]
    refine ⟨sorted_runSelect _ _, length_runSelect _ _, ?_, ?_⟩
    · intro heq
      exact absurd heq htab
    · intro _ r hr
      have hmem := mem_runSelect r _ _ hr
      obtain ⟨b, hb, rfl⟩ := List.mem_map.mp hmem
      exact ⟨b, (List.mem_filter.mp hb).1, rfl⟩

/-- Raw row used in the C7 witness. -/
def c7RawRow : RawRow :=
  { timestamp := 5, user_id := "u1", metric_type := "heart_rate", value := 70,
    metadata := { resolution := "1_second", priority := "high",
                  source := "wearipedia_clinical_trial" } }

/-- Daily-tier bucket row used in the C7 witness. -/
def c7AggRow : AggRow :=
  { bucket := 5, user_id := "u1", metric_type := "heart_rate", avg_value := 64,
    min_value := 60, max_value := 68, count := 4 }

/-- Witness for C7: a raw-tier query (10-microsecond span) returns the stored row
verbatim, and a daily-tier query (8-day span) returns the bucket projection with
synthesized `{min, max, count}` metadata. -/
theorem C7_query_shape_per_tier_witness :
    (∃ src, src ∈ [c7RawRow] ∧
      ({ timestamp := 5, value := 70, metadata := .stored c7RawRow.metadata } : ResultRow)
        = { timestamp := src.timestamp, value := src.value,
            metadata := .stored src.metadata }) ∧
    (∃ b, b ∈ [c7AggRow] ∧
      ({ timestamp := 5, value := 64, metadata := .agg 60 68 4 } : ResultRow)
        = { timestamp := b.bucket, value := b.avg_value,
            metadata := .agg b.min_value b.max_value b.count }) := by
  constructor
  · exact (C7_query_shape_per_tier 0 10 "u1" "heart_rate" 5 [c7RawRow]
      (fun _ => [])).2.2.1 (by decide) _ (by decide)
  · exact (C7_query_shape_per_tier 0 (timedeltaDays 8) "u1" "heart_rate" 5 []
      (fun _ => [c7AggRow])).2.2.2 (by decide) _ (by decide)

end WCDP
